import Mathlib

/-!
Shallow embedding of the streaming conversation controller of the
Freelance Full-Stack AI Assistant (src/App.tsx, src/services/geminiService.ts,
src/types.ts).

The remote provider is modelled by the data it feeds back into the program:
a turn's stream is a finite ordered list of incoming chunk texts (the empty
string standing for a chunk whose `text` field is absent or empty, i.e. falsy
in the source's `if (c.text)` guard) together with how the stream ends
(normal end, or a thrown error value).  All controller and service logic is
translated directly from the TypeScript source.
-/

set_option maxRecDepth 100000

namespace Chat

/-- JavaScript `String.prototype.trim`: drop whitespace from both ends.
Modelled structurally over the character list so it is kernel-computable. -/
def jsTrim (s : String) : String :=
  ⟨((s.data.dropWhile Char.isWhitespace).reverse.dropWhile Char.isWhitespace).reverse⟩

/-- Boolean test that `p` is a leading segment of the second list. -/
def listIsPrefix : List Char → List Char → Bool
  | [], _ => true
  | _ :: _, [] => false
  | c :: cs, d :: ds => c == d && listIsPrefix cs ds

/-- Boolean test that `pat` occurs contiguously inside the second list. -/
def listContainsSub (pat : List Char) : List Char → Bool
  | [] => listIsPrefix pat []
  | c :: cs => listIsPrefix pat (c :: cs) || listContainsSub pat cs

/-- JavaScript `String.prototype.startsWith`. -/
def jsStartsWith (s pre : String) : Bool :=
  listIsPrefix pre.data s.data

/-- JavaScript `String.prototype.includes`. -/
def jsIncludes (hay pat : String) : Bool :=
  listContainsSub pat.data hay.data

/-- `MessageRole` from src/types.ts. -/
inductive MessageRole where
  | User
  | AI
  deriving DecidableEq, Repr

/-- `ChatMessage` from src/types.ts. -/
structure ChatMessage where
  role : MessageRole
  content : String
  deriving DecidableEq, Repr

/-- The provider's `Chat` handle is opaque to the program; an identifier
suffices for the embedding. -/
abbrev Session := Nat

/-- How the remote stream of one turn ends: a normal end, or a thrown error
value (`isError` records whether the thrown value is an `Error` instance,
`message` its message text / string rendering). -/
inductive TurnOutcome where
  | success
  | errorThrown (isError : Bool) (message : String)
  deriving DecidableEq, Repr

/-- The observable remote behaviour of one `sendMessageStream` call: the
texts of the incoming chunks delivered before the stream ends (in arrival
order, `""` for a chunk with no text), and how it ends. -/
structure TurnBehavior where
  chunks : List String
  outcome : TurnOutcome
  deriving DecidableEq, Repr

/-- The loop body of `sendMessage` in src/geminiService.ts:
`for await (const chunk of streamResponse) if (c.text) onChunkReceived(c.text)`.
Result: the list of arguments passed to `onChunkReceived`, in order. -/
def deliverChunks : List String → List String
  | [] => []
  | c :: rest => if c = "" then deliverChunks rest else c :: deliverChunks rest

/-- The provider error-message fragment sniffed by src/geminiService.ts. -/
def sessionInvalidPattern : String := "Requested entity was not found."

/-- The fragment `sendMessage` delivers on the session-invalidating error. -/
def oopsMessage : String :=
  "Oops! 😔 It seems there was an issue with the API. Please try again. If the problem persists, your API key might need to be re-selected from a paid project. (ai.google.dev/gemini-api/docs/billing)"

/-- The classification test in src/geminiService.ts:
`error instanceof Error && error.message.includes("Requested entity was not found.")`. -/
def isSessionInvalid (isError : Bool) (message : String) : Bool :=
  isError && jsIncludes message sessionInvalidPattern

/-- What one call of `sendMessage` (src/geminiService.ts) does, as data:
the fragments handed to `onChunkReceived` in order, the module-level
`chatSession` afterwards, and whether the call throws to its caller. -/
structure SendResult where
  fragments : List String
  newSession : Option Session
  threw : Bool
  deriving DecidableEq, Repr

/-- `sendMessage` from src/geminiService.ts.  With no session it throws at
once ("Chat session not initialized"); otherwise it streams the chunks, and
on a thrown error first classifies it: a session-invalidating error nulls
`chatSession` and delivers the `oopsMessage` fragment, any other error
delivers an `"Error: " ++ message` fragment; both re-throw. -/
def sendMessageService (chatSession : Option Session) (b : TurnBehavior) : SendResult :=
  match chatSession with
  | none => { fragments := [], newSession := none, threw := true }
  | some s =>
    match b.outcome with
    | TurnOutcome.success =>
        { fragments := deliverChunks b.chunks, newSession := some s, threw := false }
    | TurnOutcome.errorThrown isErr msg =>
        if isSessionInvalid isErr msg then
          { fragments := deliverChunks b.chunks ++ [oopsMessage],
            newSession := none, threw := true }
        else
          { fragments := deliverChunks b.chunks ++ ["Error: " ++ msg],
            newSession := some s, threw := true }

/-- Controller state of src/App.tsx: the transcript, the input box, the
busy flag, and the session handle used by the service. -/
structure AppState where
  messages : List ChatMessage
  input : String
  isLoading : Bool
  chatSession : Option Session
  deriving DecidableEq, Repr

/-- `onChunkReceived` from src/App.tsx, with the captured mutable
`fullAIResponse` threaded explicitly as the first component. -/
def onChunkReceived (st : String × List ChatMessage) (chunk : String) :
    String × List ChatMessage :=
  let fullAIResponse := st.1 ++ chunk
  let prevMessages := st.2
  match prevMessages.getLast? with
  | some lastMessage =>
    if lastMessage.role = MessageRole.AI then
      (fullAIResponse,
        prevMessages.dropLast ++ [{ lastMessage with content := fullAIResponse }])
    else
      (fullAIResponse,
        prevMessages ++ [{ role := MessageRole.AI, content := fullAIResponse }])
  | none =>
      (fullAIResponse,
        prevMessages ++ [{ role := MessageRole.AI, content := fullAIResponse }])

/-- The generic error message appended by the `catch` in `handleSendMessage`. -/
def genericStreamErrorMessage : String :=
  "Error: Could not get a response. Please try again or check console for details. 😞"

/-- The `catch` branch of `handleSendMessage` in src/App.tsx: append the
generic error message unless the last message is an AI message whose content
starts with "Error:". -/
def appendErrorFallback (messages : List ChatMessage) : List ChatMessage :=
  match messages.getLast? with
  | some lastMessage =>
    if lastMessage.role = MessageRole.AI ∧
        jsStartsWith lastMessage.content "Error:" = true then
      messages
    else
      messages ++ [{ role := MessageRole.AI, content := genericStreamErrorMessage }]
  | none =>
      messages ++ [{ role := MessageRole.AI, content := genericStreamErrorMessage }]

/-- `handleSendMessage` from src/App.tsx, run to completion on one turn whose
remote behaviour is `b`.  Guard: no-op when the trimmed input is empty or the
controller is busy.  Otherwise: append the trimmed User message, clear the
input, run the stream (folding `onChunkReceived` over the delivered
fragments), on a throw run the catch fallback, and finally clear the busy
flag. -/
def handleSendMessage (st : AppState) (b : TurnBehavior) : AppState :=
  if jsTrim st.input = "" ∨ st.isLoading = true then st
  else
    let userMessage : ChatMessage :=
      { role := MessageRole.User, content := jsTrim st.input }
    let r := sendMessageService st.chatSession b
    let streamed := r.fragments.foldl onChunkReceived ("", st.messages ++ [userMessage])
    { messages := if r.threw then appendErrorFallback streamed.2 else streamed.2,
      input := "", isLoading := false, chatSession := r.newSession }

/-- Outcome of one `createChatSession()` call (src/geminiService.ts): the
provider either allocates a fresh session or the call throws. -/
inductive CreateSessionResult where
  | ok (s : Session)
  | fail
  deriving DecidableEq, Repr

/-- Greeting seeded by `handleClearChat` on success. -/
def clearGreetingMessage : String :=
  "Chat cleared! 👋 I'm ready for new questions about your freelance full-stack journey. What's on your mind? 🤔"

/-- Error message seeded by `handleClearChat` on session-creation failure. -/
def clearErrorMessage : String :=
  "Oh no! 😟 I couldn't reset our chat. Please ensure your API key is correctly configured. (ai.google.dev/gemini-api/docs/billing)"

/-- `handleClearChat` from src/App.tsx, run to completion with the given
`createChatSession` outcome.  It sets the busy flag, clears the transcript,
recreates the session, seeds a single greeting (or error) message, and
clears the busy flag; it never consults the busy flag itself.  On failure
the session reference keeps its prior value. -/
def handleClearChat (st : AppState) (r : CreateSessionResult) : AppState :=
  match r with
  | CreateSessionResult.ok s =>
      { messages := [{ role := MessageRole.AI, content := clearGreetingMessage }],
        input := st.input, isLoading := false, chatSession := some s }
  | CreateSessionResult.fail =>
      { messages := [{ role := MessageRole.AI, content := clearErrorMessage }],
        input := st.input, isLoading := false, chatSession := st.chatSession }

/-- The `New Chat` button in src/App.tsx renders with `disabled={isLoading}`:
the presentation layer blocks `handleClearChat` exactly while busy. -/
def newChatButtonDisabled (st : AppState) : Bool :=
  st.isLoading

/-- Concatenation of a fragment sequence: the reply text it reconstructs. -/
def concatAll : List String → String
  | [] => ""
  | c :: rest => c ++ concatAll rest

/-! ### Basic lemmas about the chunk reducer -/

theorem onChunkReceived_ai_last (acc x c : String) (msgs : List ChatMessage) :
    onChunkReceived (acc, msgs ++ [⟨MessageRole.AI, x⟩]) c
      = (acc ++ c, msgs ++ [⟨MessageRole.AI, acc ++ c⟩]) := by
  simp [onChunkReceived]

theorem onChunkReceived_not_ai_last (acc c : String) (msgs : List ChatMessage)
    (m : ChatMessage) (hm : m.role ≠ MessageRole.AI) :
    onChunkReceived (acc, msgs ++ [m]) c
      = (acc ++ c, msgs ++ [m, ⟨MessageRole.AI, acc ++ c⟩]) := by
  simp [onChunkReceived, hm]

theorem foldl_onChunkReceived_ai (fs : List String) :
    ∀ (acc : String) (msgs : List ChatMessage),
      fs.foldl onChunkReceived (acc, msgs ++ [⟨MessageRole.AI, acc⟩])
        = (acc ++ concatAll fs, msgs ++ [⟨MessageRole.AI, acc ++ concatAll fs⟩]) := by
  induction fs with
  | nil => intro acc msgs; simp [concatAll]
  | cons c rest ih =>
      intro acc msgs
      rw [List.foldl_cons, onChunkReceived_ai_last, ih (acc ++ c) msgs]
      simp [concatAll, String.append_assoc]

theorem foldl_onChunkReceived_user (fs : List String) (hfs : fs ≠ [])
    (u : String) (msgs : List ChatMessage) :
    fs.foldl onChunkReceived ("", msgs ++ [⟨MessageRole.User, u⟩])
      = (concatAll fs,
         msgs ++ [⟨MessageRole.User, u⟩, ⟨MessageRole.AI, concatAll fs⟩]) := by
  cases fs with
  | nil => exact absurd rfl hfs
  | cons c rest =>
      rw [List.foldl_cons,
        onChunkReceived_not_ai_last "" c msgs ⟨MessageRole.User, u⟩ (by simp)]
      have h2 := foldl_onChunkReceived_ai rest ("" ++ c) (msgs ++ [⟨MessageRole.User, u⟩])
      simp only [List.append_assoc, List.singleton_append] at h2
      rw [h2]
      simp [concatAll]

/-! ### Lemmas about the catch fallback and the guarded send handler -/

theorem appendErrorFallback_last (msgs : List ChatMessage) (m : ChatMessage) :
    appendErrorFallback (msgs ++ [m])
      = if m.role = MessageRole.AI ∧ jsStartsWith m.content "Error:" = true
        then msgs ++ [m]
        else msgs ++ [m, ⟨MessageRole.AI, genericStreamErrorMessage⟩] := by
  simp only [appendErrorFallback, List.getLast?_concat]
  split <;> simp

theorem handleSendMessage_run (st : AppState) (b : TurnBehavior)
    (h1 : jsTrim st.input ≠ "") (h2 : st.isLoading = false) :
    handleSendMessage st b
      = { messages :=
            if (sendMessageService st.chatSession b).threw then
              appendErrorFallback
                (((sendMessageService st.chatSession b).fragments.foldl onChunkReceived
                  ("", st.messages ++ [⟨MessageRole.User, jsTrim st.input⟩])).2)
            else
              ((sendMessageService st.chatSession b).fragments.foldl onChunkReceived
                ("", st.messages ++ [⟨MessageRole.User, jsTrim st.input⟩])).2,
          input := "", isLoading := false,
          chatSession := (sendMessageService st.chatSession b).newSession } := by
  unfold handleSendMessage
  rw [if_neg]
  simp [h1, h2]

/-- Closed form of the tail a guarded turn appends after the User message:
nothing on an empty successful stream, the accumulated reply on a non-empty
one, and on a throw additionally the catch fallback's generic error message
unless the accumulated content already starts with "Error:". -/
def turnTail (sess : Option Session) (b : TurnBehavior) : List ChatMessage :=
  let r := sendMessageService sess b
  if r.fragments = [] then
    if r.threw then [⟨MessageRole.AI, genericStreamErrorMessage⟩] else []
  else
    if r.threw then
      if jsStartsWith (concatAll r.fragments) "Error:" then
        [⟨MessageRole.AI, concatAll r.fragments⟩]
      else
        [⟨MessageRole.AI, concatAll r.fragments⟩,
         ⟨MessageRole.AI, genericStreamErrorMessage⟩]
    else
      [⟨MessageRole.AI, concatAll r.fragments⟩]

theorem turnTail_nil_nothrew (sess : Option Session) (b : TurnBehavior)
    (hfs : (sendMessageService sess b).fragments = [])
    (hth : (sendMessageService sess b).threw = false) :
    turnTail sess b = [] := by
  unfold turnTail; simp [hfs, hth]

theorem turnTail_nil_threw (sess : Option Session) (b : TurnBehavior)
    (hfs : (sendMessageService sess b).fragments = [])
    (hth : (sendMessageService sess b).threw = true) :
    turnTail sess b = [⟨MessageRole.AI, genericStreamErrorMessage⟩] := by
  unfold turnTail; simp [hfs, hth]

theorem turnTail_cons_nothrew (sess : Option Session) (b : TurnBehavior)
    (c : String) (cs : List String)
    (hfs : (sendMessageService sess b).fragments = c :: cs)
    (hth : (sendMessageService sess b).threw = false) :
    turnTail sess b = [⟨MessageRole.AI, concatAll (c :: cs)⟩] := by
  unfold turnTail; simp [hfs, hth]

theorem turnTail_cons_threw (sess : Option Session) (b : TurnBehavior)
    (c : String) (cs : List String)
    (hfs : (sendMessageService sess b).fragments = c :: cs)
    (hth : (sendMessageService sess b).threw = true) :
    turnTail sess b
      = if jsStartsWith (concatAll (c :: cs)) "Error:" then
          [⟨MessageRole.AI, concatAll (c :: cs)⟩]
        else
          [⟨MessageRole.AI, concatAll (c :: cs)⟩,
           ⟨MessageRole.AI, genericStreamErrorMessage⟩] := by
  unfold turnTail; simp [hfs, hth]

theorem handleSendMessage_messages (st : AppState) (b : TurnBehavior)
    (h1 : jsTrim st.input ≠ "") (h2 : st.isLoading = false) :
    (handleSendMessage st b).messages
      = st.messages ++ ⟨MessageRole.User, jsTrim st.input⟩ :: turnTail st.chatSession b := by
  rw [handleSendMessage_run st b h1 h2]
  rcases hfs : (sendMessageService st.chatSession b).fragments with _ | ⟨c, cs⟩ <;>
    cases hth : (sendMessageService st.chatSession b).threw
  · rw [turnTail_nil_nothrew st.chatSession b hfs hth]; simp
  · rw [turnTail_nil_threw st.chatSession b hfs hth]
    simp [appendErrorFallback_last]
  · rw [turnTail_cons_nothrew st.chatSession b c cs hfs hth]
    have hfold := foldl_onChunkReceived_user (c :: cs) (by simp) (jsTrim st.input) st.messages
    simp [hfold]
  · rw [turnTail_cons_threw st.chatSession b c cs hfs hth]
    have hfold := foldl_onChunkReceived_user (c :: cs) (by simp) (jsTrim st.input) st.messages
    have hsplit : st.messages ++ [⟨MessageRole.User, jsTrim st.input⟩,
          ⟨MessageRole.AI, concatAll (c :: cs)⟩]
        = (st.messages ++ [⟨MessageRole.User, jsTrim st.input⟩])
            ++ [⟨MessageRole.AI, concatAll (c :: cs)⟩] := by
      simp
    rw [if_pos (rfl : true = true), hfold, hsplit, appendErrorFallback_last]
    by_cases hsw : jsStartsWith (concatAll (c :: cs)) "Error:" = true <;> simp [hsw]

theorem turnTail_all_ai (sess : Option Session) (b : TurnBehavior) :
    ∀ m ∈ turnTail sess b, m.role = MessageRole.AI := by
  intro m hm
  rcases hfs : (sendMessageService sess b).fragments with _ | ⟨c, cs⟩ <;>
    cases hth : (sendMessageService sess b).threw
  · rw [turnTail_nil_nothrew sess b hfs hth] at hm; simp at hm
  · rw [turnTail_nil_threw sess b hfs hth] at hm; simp at hm; simp [hm]
  · rw [turnTail_cons_nothrew sess b c cs hfs hth] at hm; simp at hm; simp [hm]
  · rw [turnTail_cons_threw sess b c cs hfs hth] at hm
    split at hm
    · simp at hm; simp [hm]
    · simp at hm; rcases hm with h | h <;> simp [h]

theorem turnTail_ne_nil (sess : Option Session) (b : TurnBehavior)
    (h : (sendMessageService sess b).threw = true ∨
      (sendMessageService sess b).fragments ≠ []) :
    turnTail sess b ≠ [] := by
  rcases hfs : (sendMessageService sess b).fragments with _ | ⟨c, cs⟩ <;>
    cases hth : (sendMessageService sess b).threw
  · simp [hfs, hth] at h
  · rw [turnTail_nil_threw sess b hfs hth]; simp
  · rw [turnTail_cons_nothrew sess b c cs hfs hth]; simp
  · rw [turnTail_cons_threw sess b c cs hfs hth]; split <;> simp

theorem handleSendMessage_chatSession (st : AppState) (b : TurnBehavior)
    (h1 : jsTrim st.input ≠ "") (h2 : st.isLoading = false) :
    (handleSendMessage st b).chatSession
      = (sendMessageService st.chatSession b).newSession := by
  rw [handleSendMessage_run st b h1 h2]

theorem handleSendMessage_isLoading (st : AppState) (b : TurnBehavior)
    (h1 : jsTrim st.input ≠ "") (h2 : st.isLoading = false) :
    (handleSendMessage st b).isLoading = false := by
  rw [handleSendMessage_run st b h1 h2]

theorem genericStreamErrorMessage_prefixed :
    jsStartsWith genericStreamErrorMessage "Error:" = true := by decide

/-! ### Trimming is idempotent (for the transcript-whitespace invariant) -/

theorem dropWhile_head_not {α : Type} (p : α → Bool) (l : List α) :
    ∀ (a : α) (t : List α), List.dropWhile p l = a :: t → p a = false := by
  induction l with
  | nil => intro a t h; cases h
  | cons x xs ih =>
      intro a t h
      rw [List.dropWhile_cons] at h
      by_cases hx : p x
      · rw [if_pos hx] at h; exact ih a t h
      · rw [if_neg hx] at h
        cases h
        simpa using hx

theorem dropWhile_rdropWhile_dropWhile (p : Char → Bool) (l : List Char) :
    List.dropWhile p (List.rdropWhile p (List.dropWhile p l))
      = List.rdropWhile p (List.dropWhile p l) := by
  rcases hr : List.rdropWhile p (List.dropWhile p l) with _ | ⟨a, r⟩
  · simp
  · rw [List.dropWhile_cons]
    obtain ⟨t, ht⟩ := List.rdropWhile_prefix p (List.dropWhile p l)
    rw [hr] at ht
    have ha : p a = false := dropWhile_head_not p l a (r ++ t) ht.symm
    simp [ha]

theorem trim_ends_idem (l : List Char) :
    ((((((l.dropWhile Char.isWhitespace).reverse.dropWhile
          Char.isWhitespace).reverse).dropWhile
            Char.isWhitespace).reverse.dropWhile Char.isWhitespace).reverse)
      = ((l.dropWhile Char.isWhitespace).reverse.dropWhile Char.isWhitespace).reverse := by
  show List.rdropWhile Char.isWhitespace (List.dropWhile Char.isWhitespace
        (List.rdropWhile Char.isWhitespace (List.dropWhile Char.isWhitespace l)))
      = List.rdropWhile Char.isWhitespace (List.dropWhile Char.isWhitespace l)
  rw [dropWhile_rdropWhile_dropWhile, List.rdropWhile_idempotent]

theorem jsTrim_idem (s : String) : jsTrim (jsTrim s) = jsTrim s :=
  congrArg String.mk (trim_ends_idem s.data)

/-! ### Claims -/

/-- C1: in one submitted turn, fragments delivered in order accumulate by
concatenation into a single pending Assistant message.  After any non-empty
initial segment `p` of the fragment sequence the pending Assistant message's
content equals the concatenation of `p`; after the whole sequence `p ++ q`
the final Assistant content equals the concatenation of the whole sequence
(no duplication or reordering), the first fragment having created the pending
Assistant message because the entry before it is the turn's User message; at
the transcript level, a successful turn delivering those fragments ends with
exactly that single Assistant message. -/
theorem C1_fragment_accumulation (u : String) (msgs : List ChatMessage)
    (p q : List String) (hp : p ≠ []) :
    (p.foldl onChunkReceived ("", msgs ++ [⟨MessageRole.User, u⟩])).2
      = msgs ++ [⟨MessageRole.User, u⟩, ⟨MessageRole.AI, concatAll p⟩]
    ∧ ((p ++ q).foldl onChunkReceived ("", msgs ++ [⟨MessageRole.User, u⟩])).2
      = msgs ++ [⟨MessageRole.User, u⟩, ⟨MessageRole.AI, concatAll (p ++ q)⟩]
    ∧ ∀ (st : AppState) (b : TurnBehavior) (s : Session),
        jsTrim st.input ≠ "" → st.isLoading = false → st.chatSession = some s →
        b.outcome = TurnOutcome.success → deliverChunks b.chunks = p ++ q →
        (handleSendMessage st b).messages
          = st.messages ++ [⟨MessageRole.User, jsTrim st.input⟩,
              ⟨MessageRole.AI, concatAll (p ++ q)⟩] := by
  refine ⟨foldl_onChunkReceived_user p hp u msgs ▸ rfl, ?_, ?_⟩
  · rw [foldl_onChunkReceived_user (p ++ q)
      (fun h => hp (List.append_eq_nil.mp h).1) u msgs]
  · intro st b s hin hload hsess hout hdel
    rcases p with _ | ⟨c, ps⟩
    · exact absurd rfl hp
    · have hserv : sendMessageService st.chatSession b
          = { fragments := deliverChunks b.chunks, newSession := some s,
              threw := false } := by
        rw [hsess]; simp [sendMessageService, hout]
      have hfs : (sendMessageService st.chatSession b).fragments
          = c :: (ps ++ q) := by
        rw [hserv]; simpa using hdel
      have hth : (sendMessageService st.chatSession b).threw = false := by
        rw [hserv]
      rw [handleSendMessage_messages st b hin hload,
        turnTail_cons_nothrew st.chatSession b c (ps ++ q) hfs hth]
      simp

theorem C1_fragment_accumulation_witness :
    (["Hel"] : List String) ≠ [] ∧
    ((["Hel"] ++ ["lo"]).foldl onChunkReceived
        ("", [] ++ [⟨MessageRole.User, "hi"⟩])).2
      = [] ++ [⟨MessageRole.User, "hi"⟩,
          ⟨MessageRole.AI, concatAll (["Hel"] ++ ["lo"])⟩] ∧
    concatAll (["Hel"] ++ ["lo"]) = "Hello" :=
  ⟨by decide,
   (C1_fragment_accumulation "hi" [] ["Hel"] ["lo"] (by decide)).2.1,
   by decide⟩

/-- C4: `submit` is a no-op — state unchanged — whenever the trimmed input is
empty (in any state) or the controller is busy. -/
theorem C4_submit_noop (st : AppState) (b : TurnBehavior)
    (h : jsTrim st.input = "" ∨ st.isLoading = true) :
    handleSendMessage st b = st := by
  unfold handleSendMessage
  rw [if_pos h]

theorem C4_submit_noop_witness :
    (jsTrim "   " = "" ∨ (false : Bool) = true) ∧
    handleSendMessage
        { messages := [], input := "   ", isLoading := false, chatSession := some 0 }
        { chunks := ["x"], outcome := TurnOutcome.success }
      = { messages := [], input := "   ", isLoading := false, chatSession := some 0 } :=
  ⟨Or.inl (by decide),
   C4_submit_noop
     { messages := [], input := "   ", isLoading := false, chatSession := some 0 }
     { chunks := ["x"], outcome := TurnOutcome.success } (Or.inl (by decide))⟩

/-- C6: `resetConversation`, run to completion from any state, leaves exactly
one Assistant message in the transcript — the greeting on session-creation
success, the error message on failure — and leaves the busy flag false. -/
theorem C6_reset_single_message (st : AppState) :
    (∀ s : Session, (handleClearChat st (CreateSessionResult.ok s)).messages
        = [⟨MessageRole.AI, clearGreetingMessage⟩]) ∧
    (handleClearChat st CreateSessionResult.fail).messages
        = [⟨MessageRole.AI, clearErrorMessage⟩] ∧
    ∀ r : CreateSessionResult,
      (handleClearChat st r).messages.length = 1 ∧
      (handleClearChat st r).isLoading = false := by
  refine ⟨fun s => rfl, rfl, fun r => ?_⟩
  cases r <;> exact ⟨rfl, rfl⟩

/-- C7 counterexample: invoking `resetConversation` while the busy flag is
set does mutate the transcript (it is cleared and reseeded), contrary to the
claim that it leaves transcript and session untouched while busy. -/
theorem C7_counterexample :
    (handleClearChat
        { messages := [⟨MessageRole.User, "hi"⟩], input := "",
          isLoading := true, chatSession := some 0 }
        (CreateSessionResult.ok 1)).messages
      ≠ [⟨MessageRole.User, "hi"⟩] := by decide

/-- C7 amended: the `resetConversation` callback itself never consults the
busy flag — its effect is identical whether or not a send is in flight, so
invoked while busy it still replaces transcript and session; the only
busy-flag gating is in the presentation layer, whose New Chat button is
disabled exactly when the busy flag is set. -/
theorem C7_amended (st : AppState) (r : CreateSessionResult) :
    handleClearChat st r = handleClearChat { st with isLoading := false } r ∧
    newChatButtonDisabled st = st.isLoading := by
  cases r <;> exact ⟨rfl, rfl⟩

/-- C8: on a generic stream failure (not classified SessionInvalid) in a
guarded turn, the session handle is retained unchanged and the transcript
ends with an Assistant message whose content starts with the "Error:"
marker. -/
theorem C8_generic_failure (st : AppState) (s : Session)
    (chunks : List String) (isErr : Bool) (msg : String)
    (h1 : jsTrim st.input ≠ "") (h2 : st.isLoading = false)
    (h3 : st.chatSession = some s)
    (h4 : isSessionInvalid isErr msg = false) :
    (handleSendMessage st
        { chunks := chunks, outcome := TurnOutcome.errorThrown isErr msg }).chatSession
      = some s ∧
    ∃ last : ChatMessage,
      (handleSendMessage st
          { chunks := chunks,
            outcome := TurnOutcome.errorThrown isErr msg }).messages.getLast?
        = some last ∧
      last.role = MessageRole.AI ∧
      jsStartsWith last.content "Error:" = true := by
  have hserv : sendMessageService st.chatSession
      { chunks := chunks, outcome := TurnOutcome.errorThrown isErr msg }
      = { fragments := deliverChunks chunks ++ ["Error: " ++ msg],
          newSession := some s, threw := true } := by
    rw [h3]; simp [sendMessageService, h4]
  constructor
  · rw [handleSendMessage_chatSession st _ h1 h2, hserv]
  · rcases hdc : deliverChunks chunks with _ | ⟨c, cs⟩
    all_goals
      rw [handleSendMessage_messages st _ h1 h2]
    · have hfs : (sendMessageService st.chatSession
          { chunks := chunks, outcome := TurnOutcome.errorThrown isErr msg }).fragments
          = ("Error: " ++ msg) :: [] := by rw [hserv, hdc]; rfl
      have hth := congrArg SendResult.threw hserv
      rw [turnTail_cons_threw _ _ _ _ hfs hth]
      split
      · next hsw =>
          exact ⟨⟨MessageRole.AI, concatAll [("Error: " ++ msg)]⟩,
            by rw [List.getLast?_append_of_ne_nil _ (by simp)]; rfl, rfl, hsw⟩
      · exact ⟨⟨MessageRole.AI, genericStreamErrorMessage⟩,
          by rw [List.getLast?_append_of_ne_nil _ (by simp)]; rfl, rfl,
          genericStreamErrorMessage_prefixed⟩
    · have hfs : (sendMessageService st.chatSession
          { chunks := chunks, outcome := TurnOutcome.errorThrown isErr msg }).fragments
          = c :: (cs ++ ["Error: " ++ msg]) := by rw [hserv, hdc]; rfl
      have hth := congrArg SendResult.threw hserv
      rw [turnTail_cons_threw _ _ _ _ hfs hth]
      split
      · next hsw =>
          exact ⟨⟨MessageRole.AI, concatAll (c :: (cs ++ ["Error: " ++ msg]))⟩,
            by rw [List.getLast?_append_of_ne_nil _ (by simp)]; rfl, rfl, hsw⟩
      · exact ⟨⟨MessageRole.AI, genericStreamErrorMessage⟩,
          by rw [List.getLast?_append_of_ne_nil _ (by simp)]; rfl, rfl,
          genericStreamErrorMessage_prefixed⟩

theorem C8_generic_failure_witness :
    (jsTrim "hi" ≠ "" ∧ isSessionInvalid true "boom" = false) ∧
    ((handleSendMessage
        { messages := [], input := "hi", isLoading := false, chatSession := some 0 }
        { chunks := ["Hel"],
          outcome := TurnOutcome.errorThrown true "boom" }).chatSession = some 0 ∧
     ∃ last : ChatMessage,
       (handleSendMessage
           { messages := [], input := "hi", isLoading := false, chatSession := some 0 }
           { chunks := ["Hel"],
             outcome := TurnOutcome.errorThrown true "boom" }).messages.getLast?
         = some last ∧
       last.role = MessageRole.AI ∧
       jsStartsWith last.content "Error:" = true) :=
  ⟨⟨by decide, by decide⟩,
   C8_generic_failure
     { messages := [], input := "hi", isLoading := false, chatSession := some 0 }
     0 ["Hel"] true "boom" (by decide) rfl rfl (by decide)⟩

/-- C10: a guarded `submit` appends a User message whose content is the
input with surrounding whitespace removed (the trimmed input, not the raw
input); the trimmed content has no surrounding whitespace left (trimming is
idempotent), and the turn appends no further User message, so submitted turns
never put a User message with surrounding whitespace into the transcript. -/
theorem C10_trimmed_user (st : AppState) (b : TurnBehavior)
    (h1 : jsTrim st.input ≠ "") (h2 : st.isLoading = false) :
    (∃ rest : List ChatMessage,
      (handleSendMessage st b).messages
        = st.messages ++ ⟨MessageRole.User, jsTrim st.input⟩ :: rest ∧
      ∀ m ∈ rest, m.role = MessageRole.AI) ∧
    jsTrim (jsTrim st.input) = jsTrim st.input :=
  ⟨⟨turnTail st.chatSession b, handleSendMessage_messages st b h1 h2,
    turnTail_all_ai st.chatSession b⟩,
   jsTrim_idem st.input⟩

/-- C2 counterexample: after a SessionInvalid turn the session is absent, and
the next guarded submit does not recreate it before sending — even a stream
that would succeed delivers nothing: the turn ends with the generic error
message as the last transcript entry and the session still absent. -/
theorem C2_counterexample :
    (handleSendMessage
        { handleSendMessage
            { messages := [], input := "hi", isLoading := false, chatSession := some 0 }
            { chunks := [],
              outcome := TurnOutcome.errorThrown true "Requested entity was not found." }
          with input := "again" }
        { chunks := ["Hi!"], outcome := TurnOutcome.success }).chatSession = none ∧
    (handleSendMessage
        { handleSendMessage
            { messages := [], input := "hi", isLoading := false, chatSession := some 0 }
            { chunks := [],
              outcome := TurnOutcome.errorThrown true "Requested entity was not found." }
          with input := "again" }
        { chunks := ["Hi!"], outcome := TurnOutcome.success }).messages.getLast?
      = some ⟨MessageRole.AI, genericStreamErrorMessage⟩ := by decide

/-- C2 amended: after a SessionInvalid error during a guarded turn the session
handle is absent; but the next guarded submit does NOT recreate it — with the
session absent, `sendMessage` throws before contacting the remote, so that
turn appends the User message plus the generic error Assistant message,
delivers no reply, and leaves the session still absent and the busy flag
false.  The session is recreated only by `resetConversation` (or the initial
mount), not implicitly by `submit`. -/
theorem C2_amended :
    (∀ (st : AppState) (chunks : List String) (isErr : Bool) (msg : String)
        (s : Session),
      jsTrim st.input ≠ "" → st.isLoading = false → st.chatSession = some s →
      isSessionInvalid isErr msg = true →
      (handleSendMessage st
          { chunks := chunks,
            outcome := TurnOutcome.errorThrown isErr msg }).chatSession = none) ∧
    (∀ (st : AppState) (b : TurnBehavior),
      jsTrim st.input ≠ "" → st.isLoading = false → st.chatSession = none →
      handleSendMessage st b
        = { messages := st.messages ++ [⟨MessageRole.User, jsTrim st.input⟩,
              ⟨MessageRole.AI, genericStreamErrorMessage⟩],
            input := "", isLoading := false, chatSession := none }) := by
  constructor
  · intro st chunks isErr msg s h1 h2 h3 h4
    rw [handleSendMessage_chatSession st _ h1 h2, h3]
    simp [sendMessageService, h4]
  · intro st b h1 h2 h3
    have hserv : sendMessageService st.chatSession b
        = { fragments := [], newSession := none, threw := true } := by
      rw [h3]; rfl
    rw [handleSendMessage_run st b h1 h2, hserv]
    simp [appendErrorFallback_last]

theorem C2_amended_witness :
    (jsTrim "hi" ≠ "" ∧
     isSessionInvalid true "Requested entity was not found." = true ∧
     (handleSendMessage
         { messages := [], input := "hi", isLoading := false, chatSession := some 0 }
         { chunks := [],
           outcome := TurnOutcome.errorThrown true
             "Requested entity was not found." }).chatSession = none) ∧
    handleSendMessage
        { messages := [], input := "hi", isLoading := false, chatSession := none }
        { chunks := ["Hi!"], outcome := TurnOutcome.success }
      = { messages := [⟨MessageRole.User, jsTrim "hi"⟩,
            ⟨MessageRole.AI, genericStreamErrorMessage⟩],
          input := "", isLoading := false, chatSession := none } :=
  ⟨⟨by decide, by decide,
    C2_amended.1
      { messages := [], input := "hi", isLoading := false, chatSession := some 0 }
      [] true "Requested entity was not found." 0 (by decide) rfl rfl (by decide)⟩,
   C2_amended.2
     { messages := [], input := "hi", isLoading := false, chatSession := none }
     { chunks := ["Hi!"], outcome := TurnOutcome.success } (by decide) rfl rfl⟩

/-- C3, evaluated at the failing input: a SessionInvalid failure with no
prior chunks makes one guarded submit append one User message and TWO
Assistant messages — the "Oops" fragment message delivered by the service,
then the generic error message appended by the catch, whose duplicate check
requires the last content to start with "Error:", which the Oops text does
not.  This contradicts the claimed "at most one Assistant message per call"
and the catch's own comment that it adds a message only when the AI message
is not already there. -/
theorem C3_two_assistants_on_session_invalid :
    (handleSendMessage
        { messages := [], input := "hi", isLoading := false, chatSession := some 0 }
        { chunks := [],
          outcome := TurnOutcome.errorThrown true
            "Requested entity was not found." }).messages
      = [⟨MessageRole.User, "hi"⟩, ⟨MessageRole.AI, oopsMessage⟩,
         ⟨MessageRole.AI, genericStreamErrorMessage⟩] := by decide

/-- C5 counterexample: a guarded submit whose stream ends normally after a
single chunk carrying no text leaves the transcript with only the new User
message — no Assistant message is appended for that turn, while the busy flag
does clear. -/
theorem C5_counterexample :
    (handleSendMessage
        { messages := [], input := "hi", isLoading := false, chatSession := some 0 }
        { chunks := [""], outcome := TurnOutcome.success }).messages
      = [⟨MessageRole.User, "hi"⟩] := by decide

/-- C5 amended: every guarded submit terminates in a successor state (no
failure escapes the controller) with the busy flag false, and the transcript
gains at least one Assistant message for the turn in every failing outcome
and in every successful stream that delivered at least one fragment; only a
successful stream that delivered no non-empty fragment leaves the turn with
the User message alone. -/
theorem C5_amended (st : AppState) (b : TurnBehavior)
    (h1 : jsTrim st.input ≠ "") (h2 : st.isLoading = false) :
    (handleSendMessage st b).isLoading = false ∧
    ∃ rest : List ChatMessage,
      (handleSendMessage st b).messages
        = st.messages ++ ⟨MessageRole.User, jsTrim st.input⟩ :: rest ∧
      ((sendMessageService st.chatSession b).threw = true ∨
        (sendMessageService st.chatSession b).fragments ≠ [] →
        ∃ m ∈ rest, m.role = MessageRole.AI) := by
  refine ⟨handleSendMessage_isLoading st b h1 h2,
    turnTail st.chatSession b, handleSendMessage_messages st b h1 h2, ?_⟩
  intro h
  have hne := turnTail_ne_nil st.chatSession b h
  rcases htt : turnTail st.chatSession b with _ | ⟨m, ms⟩
  · exact absurd htt hne
  · exact ⟨m, by simp,
      turnTail_all_ai st.chatSession b m (by rw [htt]; simp)⟩

theorem C5_amended_witness :
    (jsTrim "hi" ≠ "") ∧
    ((handleSendMessage
        { messages := [], input := "hi", isLoading := false, chatSession := some 0 }
        { chunks := [],
          outcome := TurnOutcome.errorThrown false "net down" }).isLoading = false ∧
     ∃ rest : List ChatMessage,
       (handleSendMessage
           { messages := [], input := "hi", isLoading := false, chatSession := some 0 }
           { chunks := [],
             outcome := TurnOutcome.errorThrown false "net down" }).messages
         = [] ++ ⟨MessageRole.User, jsTrim "hi"⟩ :: rest ∧
       ((sendMessageService (some 0)
           { chunks := [],
             outcome := TurnOutcome.errorThrown false "net down" }).threw = true ∨
         (sendMessageService (some 0)
           { chunks := [],
             outcome := TurnOutcome.errorThrown false "net down" }).fragments ≠ [] →
         ∃ m ∈ rest, m.role = MessageRole.AI)) :=
  ⟨by decide,
   C5_amended
     { messages := [], input := "hi", isLoading := false, chatSession := some 0 }
     { chunks := [], outcome := TurnOutcome.errorThrown false "net down" }
     (by decide) rfl⟩

/-- The stream loop delivers exactly the non-empty chunk texts. -/
theorem deliverChunks_eq_filter (chunks : List String) :
    deliverChunks chunks = chunks.filter (fun c => c ≠ "") := by
  induction chunks with
  | nil => rfl
  | cons c cs ih => by_cases hc : c = "" <;> simp [deliverChunks, hc, ih]

/-- C9 counterexample: with an incoming chunk carrying no text, the callback
is not invoked once per incoming chunk — the empty-text chunk is skipped, so
only two invocations happen for three chunks. -/
theorem C9_counterexample :
    (sendMessageService (some 0)
        { chunks := ["Hel", "", "lo"], outcome := TurnOutcome.success }).fragments
      = ["Hel", "lo"] ∧
    (sendMessageService (some 0)
        { chunks := ["Hel", "", "lo"], outcome := TurnOutcome.success }).fragments
      ≠ ["Hel", "", "lo"] := by decide

/-- C9 amended: while the stream stays open, `onFragment` is invoked exactly
once per incoming chunk carrying non-empty text, in arrival order: the
delivered sequence equals the chunk-text sequence with empty texts removed —
a subsequence of the arrivals, so no duplication or reordering — and a
normally ending stream throws nothing. -/
theorem C9_per_chunk_delivery (s : Session) (chunks : List String) :
    (sendMessageService (some s)
        { chunks := chunks, outcome := TurnOutcome.success }).fragments
      = chunks.filter (fun c => c ≠ "") ∧
    (sendMessageService (some s)
        { chunks := chunks, outcome := TurnOutcome.success }).fragments.Sublist
      chunks ∧
    (sendMessageService (some s)
        { chunks := chunks, outcome := TurnOutcome.success }).threw = false := by
  refine ⟨deliverChunks_eq_filter chunks, ?_, rfl⟩
  show (deliverChunks chunks).Sublist chunks
  rw [deliverChunks_eq_filter]
  exact List.filter_sublist chunks

theorem C10_trimmed_user_witness :
    (jsTrim " hi " ≠ "") ∧
    ((∃ rest : List ChatMessage,
      (handleSendMessage
        { messages := [], input := " hi ", isLoading := false, chatSession := some 0 }
        { chunks := ["ok"], outcome := TurnOutcome.success }).messages
        = [] ++ ⟨MessageRole.User, jsTrim " hi "⟩ :: rest ∧
      ∀ m ∈ rest, m.role = MessageRole.AI) ∧
    jsTrim (jsTrim " hi ") = jsTrim " hi ") :=
  ⟨by decide,
   C10_trimmed_user
     { messages := [], input := " hi ", isLoading := false, chatSession := some 0 }
     { chunks := ["ok"], outcome := TurnOutcome.success } (by decide) rfl⟩

end Chat
